import Mathlib

/-
Verification of the tesseract-v50 wallet aggregator and formula library.

Shallow embedding conventions:
* Python floats are idealized as exact rationals (`ℚ`) where only field
  arithmetic occurs, and as real numbers (`ℝ`) where irrational functions
  (square roots, real powers) occur.
* JSON values (and Python values produced by parsing JSON) are the `Json`
  inductive below; Python `None` is `Json.null`.
* Every fallible Python operation returns `Except PyErr _`; an
  `Except.error` models an uncaught Python exception propagating out of
  the corresponding function.
* Timestamps (`datetime.now().isoformat()`) are nondeterministic I/O and
  are omitted from the modelled envelopes; logging is likewise dropped
  except where the logged expression itself can raise (those expressions
  are kept, because their exceptions are observable).
* The outcome of one outbound HTTP call (request + body parse) is a
  `FetchOutcome`: either a response with a status code and parsed JSON
  body, or a raised network/parse exception.
-/

namespace Tesseract

/-- Python exception kinds that the embedded code can raise. -/
inductive PyErr where
  /-- UnboundLocalError: a local variable referenced before assignment
      (in particular the except-target `e`, which Python 3 unbinds at the
      end of the except handler). -/
  | unboundLocal (n : String)
  /-- AttributeError, e.g. calling .get on None. -/
  | attributeErr (msg : String)
  /-- TypeError, e.g. len() of an unsized object or slicing a dict. -/
  | typeErr (msg : String)
  /-- ZeroDivisionError from float division by zero. -/
  | zeroDivisionErr
  deriving Repr, DecidableEq

/-- Rendering used where the source interpolates str(e) into a payload. -/
def pyErrStr : PyErr → String
  | .unboundLocal n => "local variable " ++ n ++ " referenced before assignment"
  | .attributeErr msg => msg
  | .typeErr msg => msg
  | .zeroDivisionErr => "division by zero"

/-- JSON values / parsed Python values. `null` doubles as Python None. -/
inductive Json where
  | null
  | bool (b : Bool)
  | num (q : ℚ)
  | str (s : String)
  | arr (elems : List Json)
  | obj (fields : List (String × Json))
  deriving Repr

/-- Field lookup inside a JSON object (first binding wins, as in a dict). -/
def jLookup : Json → String → Option Json
  | .obj fields, k => fields.lookup k
  | _, _ => none

/-- Python d.get(k, default): succeeds on dicts, raises AttributeError on
    anything else (None, numbers, lists, strings have no .get). -/
def pyGet (v : Json) (k : String) (dflt : Json) : Except PyErr Json :=
  match v with
  | .obj fields => .ok ((fields.lookup k).getD dflt)
  | _ => .error (.attributeErr "object has no attribute get")

/-- Python len(): defined for strings, lists and dicts; TypeError otherwise. -/
def pyLen : Json → Except PyErr ℕ
  | .str s => .ok s.length
  | .arr l => .ok l.length
  | .obj l => .ok l.length
  | _ => .error (.typeErr "object has no len")

/-- Python v[:5] followed by iteration: lists slice to their first five
    elements, strings slice and then iterate as one-character strings,
    dicts raise TypeError (slice is unhashable), everything else raises
    TypeError (not subscriptable). -/
def pySlice5 : Json → Except PyErr (List Json)
  | .arr l => .ok (l.take 5)
  | .str s => .ok ((s.toList.take 5).map (fun c => .str c.toString))
  | .obj _ => .error (.typeErr "unhashable type: slice")
  | _ => .error (.typeErr "object is not subscriptable")

/-- Value of a list of decimal digit characters. -/
def digitsToNat (ds : List Char) : ℕ :=
  ds.foldl (fun a c => 10 * a + (c.toNat - 48)) 0

/-- Strip one optional leading sign; the Bool is true for a minus sign. -/
def splitSign : List Char → Bool × List Char
  | '-' :: r => (true, r)
  | '+' :: r => (false, r)
  | r => (false, r)

/-- Python float(string) on finite decimal literals: optional sign, an
    integer part and/or a fractional part, optional decimal exponent.
    (Leading/trailing whitespace, underscores, inf and nan are not
    modelled; no claim depends on them.) -/
def pyFloatStr (s : String) : Option ℚ :=
  let (neg, cs) := splitSign s.toList
  let ip := cs.takeWhile Char.isDigit
  let r1 := cs.dropWhile Char.isDigit
  let fp := match r1 with
    | '.' :: r => r.takeWhile Char.isDigit
    | _ => []
  let r2 := match r1 with
    | '.' :: r => r.dropWhile Char.isDigit
    | _ => r1
  if ip.isEmpty && fp.isEmpty then none
  else
    let mant : ℚ := (digitsToNat (ip ++ fp) : ℚ) / (10 : ℚ) ^ fp.length
    let signed : ℚ := if neg then -mant else mant
    match r2 with
    | [] => some signed
    | c :: r3 =>
      if c == 'e' || c == 'E' then
        let (eneg, r4) := splitSign r3
        let ed := r4.takeWhile Char.isDigit
        let r5 := r4.dropWhile Char.isDigit
        if ed.isEmpty || !r5.isEmpty then none
        else some (if eneg then signed / (10 : ℚ) ^ digitsToNat ed
                   else signed * (10 : ℚ) ^ digitsToNat ed)
      else none

/-- Python float(v) coercion of a parsed-JSON value: numbers pass through,
    booleans become 0/1, strings are parsed, everything else (None, lists,
    dicts) fails with TypeError (modelled as none, since every use site
    catches the failure). -/
def pyFloat : Json → Option ℚ
  | .num q => some q
  | .bool b => some (if b then 1 else 0)
  | .str s => pyFloatStr s
  | _ => none

/-- Outcome of one outbound HTTP call: an HTTP response whose JSON body
    parsed to payload, or a raised exception (timeout, connection error,
    body-parse failure). -/
inductive FetchOutcome where
  | resp (status : ℕ) (payload : Json)
  | exc (msg : String)
  deriving Repr

/-- True when the outcome is not a 200 response (the fallback and token
    fetches treat every such outcome as failure). -/
def fetchFails : FetchOutcome → Bool
  | .resp s _ => if s = 200 then false else true
  | .exc _ => true

/-- The fixed monitored account (WALLET_ADDRESS in solana_integration.py). -/
def WALLET_ADDRESS : String := "57pNZ8Kybv22PJ8z5AK7ojB8G7Rx2XQLsfNQV8a65rmm"

/-- Mutable fields of SolanaWalletIntegration: the (dead) balance history
    list, the last raw transaction payload, and the profit_tracking dict
    (total_profit, sessions, last_profit; timestamp omitted). -/
structure WalletState where
  balance_history : List Json
  transactions : Json
  total_profit : ℚ
  sessions : ℕ
  last_profit : ℚ
  deriving Repr

/-- State produced by SolanaWalletIntegration.__init__. -/
def initState : WalletState :=
  { balance_history := [], transactions := .arr [],
    total_profit := 0, sessions := 0, last_profit := 0 }

/-- The profit_tracking dict as it appears inside response envelopes. -/
def profitJson (st : WalletState) : Json :=
  .obj [("total_profit", .num st.total_profit),
        ("sessions", .num (st.sessions : ℚ)),
        ("last_profit", .num st.last_profit)]

/-- The pending placeholder envelope of _get_balance_fallback. -/
def pendingEnv (w : String) : Json :=
  .obj [("status", .str "pending"), ("wallet", .str w),
        ("message", .str "Wallet monitoring active")]

/-- SolanaWalletIntegration._get_balance_fallback: one Solscan call; a 200
    response yields a success envelope, any other outcome falls through to
    the pending placeholder. Never raises. -/
def get_balance_fallback (w : String) (fallback : FetchOutcome) : Json :=
  match fallback with
  | .resp s p =>
    if s = 200 then
      .obj [("status", .str "success"), ("wallet", .str w), ("data", p)]
    else pendingEnv w
  | .exc _ => pendingEnv w

/-- SolanaWalletIntegration.get_wallet_balance: primary Helius call; 200
    yields a success envelope, 429 and raised exceptions defer to the
    fallback, and any other status falls off the end of the function,
    returning Python None (Json.null). -/
def get_wallet_balance (w : String) (primary fallback : FetchOutcome) : Json :=
  match primary with
  | .resp s p =>
    if s = 200 then
      .obj [("status", .str "success"), ("wallet", .str w), ("balance", p)]
    else if s = 429 then get_balance_fallback w fallback
    else Json.null
  | .exc _ => get_balance_fallback w fallback

/-- SolanaWalletIntegration.get_token_balances: on a 200 response the
    success envelope embeds the payload and its len(); every failure path
    reaches the trailing return whose f-string mentions str(e), where the
    except target e is no longer bound (Python 3 deletes it after the
    handler), so the function raises UnboundLocalError instead of
    returning the intended error envelope. -/
def get_token_balances (call : FetchOutcome) : Except PyErr Json :=
  match call with
  | .resp s p =>
    if s = 200 then
      match pyLen p with
      | .ok n =>
        .ok (.obj [("status", .str "success"), ("tokens", p),
                   ("count", .num (n : ℚ))])
      | .error _ => .error (.unboundLocal "e")
    else .error (.unboundLocal "e")
  | .exc _ => .error (.unboundLocal "e")

/-- SolanaWalletIntegration.get_transaction_history: like the token fetch,
    but a 200 response first overwrites self.transactions with the raw
    payload (that write persists even if the subsequent len() raises). -/
def get_transaction_history (call : FetchOutcome) (_lim : ℕ) (st : WalletState) :
    Except PyErr Json × WalletState :=
  match call with
  | .resp s p =>
    if s = 200 then
      let st1 := { st with transactions := p }
      match pyLen p with
      | .ok n =>
        (.ok (.obj [("status", .str "success"), ("transactions", p),
                    ("count", .num (n : ℚ))]), st1)
      | .error _ => (.error (.unboundLocal "e"), st1)
    else (.error (.unboundLocal "e"), st)
  | .exc _ => (.error (.unboundLocal "e"), st)

/-- SolanaWalletIntegration.get_wallet_nfts: same shape as the token fetch. -/
def get_wallet_nfts (call : FetchOutcome) : Except PyErr Json :=
  match call with
  | .resp s p =>
    if s = 200 then
      match pyLen p with
      | .ok n =>
        .ok (.obj [("status", .str "success"), ("nfts", p),
                   ("count", .num (n : ℚ))])
      | .error _ => .error (.unboundLocal "e")
    else .error (.unboundLocal "e")
  | .exc _ => .error (.unboundLocal "e")

/-- One step of the profit loop in monitor_wallet: entries that are dicts
    with an amount key have float(amount) added; a failed coercion is
    swallowed by the bare except; everything else is skipped. -/
def profitStep (acc : ℚ) (tx : Json) : ℚ :=
  match tx with
  | .obj fields =>
    match fields.lookup "amount" with
    | some v =>
      match pyFloat v with
      | some q => acc + q
      | none => acc
    | none => acc
  | _ => acc

/-- The profit accumulation loop of monitor_wallet, starting from 0.0. -/
def profitFold (txs : List Json) : ℚ := txs.foldl profitStep 0

/-- The profit-delta block of monitor_wallet (lines 163-173): when the
    transaction envelope has status success, slice the raw transactions
    value to its first five entries and run the profit loop; slicing a
    non-list payload can raise TypeError, which propagates. -/
def computeProfit (txEnv : Json) : Except PyErr ℚ :=
  match pyGet txEnv "status" Json.null with
  | .error e => .error e
  | .ok s =>
    if (match s with | .str t => t = "success" | _ => false : Bool) then
      match pyGet txEnv "transactions" (.arr []) with
      | .error e => .error e
      | .ok raw =>
        match pySlice5 raw with
        | .error e => .error e
        | .ok txs => .ok (profitFold txs)
    else .ok 0

/-- The four provider-call outcomes one monitor_wallet invocation consumes:
    primary and fallback balance calls, the token call and the transaction
    call. -/
structure MonitorEnv where
  balancePrimary : FetchOutcome
  balanceFallback : FetchOutcome
  tokensCall : FetchOutcome
  txCall : FetchOutcome
  deriving Repr

/-- SolanaWalletIntegration.monitor_wallet. The balance fetch never raises
    (it may produce None); the token and transaction fetches propagate
    their UnboundLocalError failures; the profit delta is computed, the
    profit_tracking state is updated, and only then does the summary
    logging read balance.get(status), which raises AttributeError when the
    balance fetch produced None — after the state update. -/
def monitor_wallet (w : String) (env : MonitorEnv) (st : WalletState) :
    Except PyErr Json × WalletState :=
  let balance := get_wallet_balance w env.balancePrimary env.balanceFallback
  match get_token_balances env.tokensCall with
  | .error e => (.error e, st)
  | .ok tokensEnv =>
    match get_transaction_history env.txCall 10 st with
    | (.error e, st1) => (.error e, st1)
    | (.ok txEnv, st1) =>
      match computeProfit txEnv with
      | .error e => (.error e, st1)
      | .ok profit =>
        let st2 : WalletState :=
          { st1 with
            last_profit := profit,
            total_profit := st1.total_profit + profit,
            sessions := st1.sessions + 1 }
        let res : Except PyErr Json :=
          match pyGet balance "status" Json.null with
          | .error e => .error e
          | .ok _ =>
            match pyGet tokensEnv "count" (.num 0) with
            | .error e => .error e
            | .ok _ =>
              match pyGet txEnv "count" (.num 0) with
              | .error e => .error e
              | .ok _ =>
                .ok (.obj [("status", .str "success"), ("wallet", .str w),
                           ("balance", balance), ("tokens", tokensEnv),
                           ("transactions", txEnv),
                           ("profit_tracking", profitJson st2)])
        (res, st2)

/-- SolanaWalletIntegration.track_profit: pure report over the profit
    state; the average divides by max(1, sessions). -/
def track_profit (st : WalletState) : Json :=
  .obj [("status", .str "success"),
        ("profit_tracking", profitJson st),
        ("total_profit", .num st.total_profit),
        ("average_profit_per_session",
          .num (st.total_profit / ((max 1 st.sessions : ℕ) : ℚ))),
        ("sessions", .num (st.sessions : ℚ))]

/-- The error envelope produced by catch-all handlers that interpolate
    str(e) (used by get_wallet_value's outer try/except). -/
def errorEnv (e : PyErr) : Json :=
  .obj [("status", .str "error"), ("error", .str (pyErrStr e))]

/-- SolanaWalletIntegration.get_wallet_value: token, NFT and balance
    fetches inside one catch-all try; any exception (in particular the
    UnboundLocalError a failed token/NFT fetch raises) becomes an error
    envelope; on success the monetary fields are hardcoded zeros and
    nft_count comes from the NFT envelope's count. -/
def get_wallet_value (w : String)
    (tokensCall nftsCall balPrimary balFallback : FetchOutcome) : Json :=
  match get_token_balances tokensCall with
  | .error e => errorEnv e
  | .ok tokensEnv =>
    match get_wallet_nfts nftsCall with
    | .error e => errorEnv e
    | .ok nftsEnv =>
      let _balance := get_wallet_balance w balPrimary balFallback
      match pyGet nftsEnv "count" (.num 0) with
      | .error e => errorEnv e
      | .ok cnt =>
        match pyGet tokensEnv "count" (.num 0) with
        | .error e => errorEnv e
        | .ok _ =>
          .obj [("status", .str "success"), ("wallet", .str w),
                ("value", .obj [("sol_balance", .num 0),
                                ("token_value", .num 0),
                                ("nft_count", cnt),
                                ("total_usd_value", .num 0)])]

/-- SolanaWalletIntegration.get_wallet_status: reports the profit state,
    len(self.transactions) (which raises TypeError on an unsized raw
    payload) and len(self.balance_history). -/
def get_wallet_status (w : String) (st : WalletState) : Except PyErr Json :=
  match pyLen st.transactions with
  | .error e => .error e
  | .ok n =>
    .ok (.obj [("wallet_address", .str w),
               ("profit_tracking", profitJson st),
               ("transaction_count", .num (n : ℚ)),
               ("balance_history_size", .num (st.balance_history.length : ℚ)),
               ("status", .str "active")])

/-- The balance_history_size field get_wallet_status reports, when the
    status call succeeds. -/
def reportedHistorySize (w : String) (st : WalletState) : Option Json :=
  match get_wallet_status w st with
  | .ok j => jLookup j "balance_history_size"
  | .error _ => none

/-
Formula library (magick_engine.py). Each function returns a dict with
fixed keys; those are embedded as structures / small inductives whose
fields carry the numeric payload (constant commentary strings of the
source dicts are omitted). Formulas whose arithmetic is purely a field
computation use ℚ; the ones involving square roots or real powers use ℝ.
-/

/-- The Fibonacci table SacredGeometry.FIBONACCI. -/
def FIBONACCI : List ℕ :=
  [1, 1, 2, 3, 5, 8, 13, 21, 34, 55, 89, 144, 233, 377, 610, 987]

/-- The golden ratio SacredGeometry.PHI = (1 + sqrt 5) / 2. -/
noncomputable def PHI : ℝ := (1 + Real.sqrt 5) / 2

/-- SacredGeometry.golden_ratio_levels: one level per Fibonacci entry,
    price * PHI ^ (fib / 10) (real power of a float exponent). -/
noncomputable def golden_ratio_levels (price : ℝ) : List ℝ :=
  FIBONACCI.map (fun fib => price * PHI ^ ((fib : ℝ) / 10))

/-- Result of SacredGeometry.flower_of_life_pattern: either the
    insufficient-data sentinel dict or the flower_of_life pattern dict
    carrying its harmony_score. -/
inductive FlowerResult where
  /-- The dict with pattern = insufficient_data. -/
  | insufficient
  /-- The dict with pattern = flower_of_life and the given harmony_score. -/
  | flowerOfLife (harmony_score : ℝ)

/-- np.mean of a list of floats. -/
noncomputable def npMean (l : List ℝ) : ℝ := l.sum / l.length

/-- np.var (population variance), the square of np.std. -/
noncomputable def npVar (l : List ℝ) : ℝ :=
  ((l.map (fun x => (x - npMean l) ^ 2)).sum) / l.length

/-- np.std (population standard deviation). -/
noncomputable def npStd (l : List ℝ) : ℝ := Real.sqrt (npVar l)

/-- Python range(0, stop, step) for a possibly negative stop and positive
    step, as the list of visited indices. -/
def pyRangeStep (stop : ℤ) (step : ℕ) : List ℕ :=
  (List.range (((max stop 0).toNat + step - 1) / step)).map (fun i => i * step)

/-- The segment start indices range(0, len(data) - 19, 19) used by
    flower_of_life_pattern; empty whenever len(data) ≤ 19. -/
def folStarts (n : ℕ) : List ℕ := pyRangeStep ((n : ℤ) - 19) 19

/-- Contribution of one 19-element segment: guarded by std > 0; inside the
    guard numpy evaluates std/mean, which for mean = 0 is +inf so that
    max(0, 1 - std/mean) = 0 — that numpy-infinity case is modelled by the
    inner zero branch. -/
noncomputable def folContrib (seg : List ℝ) : ℝ :=
  if npStd seg > 0 then
    (if npMean seg = 0 then 0 else max 0 (1 - npStd seg / npMean seg))
  else 0

/-- SacredGeometry.flower_of_life_pattern: inputs shorter than 6 return
    the sentinel; otherwise segments of 19 starting at range(0, len-19, 19)
    are scored and the total is divided by max(1, (len-19)/19). -/
noncomputable def flower_of_life_pattern (data : List ℝ) : FlowerResult :=
  if data.length < 6 then .insufficient
  else
    let score :=
      ((folStarts data.length).map
        (fun i => folContrib ((data.drop i).take 19))).sum
    .flowerOfLife (score / max 1 (((data.length : ℝ) - 19) / 19))

/-- SacredGeometry.vesica_piscis_ratio (renamed: v-p gap): zero when either
    input is zero, otherwise the distance of value1/value2 from sqrt 3 / 2. -/
noncomputable def vesica_piscis (value1 value2 : ℝ) : ℝ :=
  if value1 = 0 ∨ value2 = 0 then 0
  else |value1 / value2 - Real.sqrt 3 / 2|

/-- Result dict of HermeticPrinciples.principle_correspondence (source
    parameter names macro/micro; key correspondence_ratio is the quotient
    field here). -/
structure CorrespondenceResult where
  upper_level : ℚ
  lower_level : ℚ
  corr_quotient : ℚ
  deriving Repr, DecidableEq

/-- HermeticPrinciples.principle_correspondence: the quotient defaults to
    0 when the denominator is zero. -/
def principle_correspondence (upper lower : ℚ) : CorrespondenceResult :=
  { upper_level := upper, lower_level := lower,
    corr_quotient := if lower ≠ 0 then upper / lower else 0 }

/-- Result dict of HermeticPrinciples.principle_vibration. -/
structure VibrationResult where
  frequency : ℚ
  wavelength : ℚ
  deriving Repr, DecidableEq

/-- HermeticPrinciples.principle_vibration: wavelength 1/frequency with a
    zero default at frequency 0. -/
def principle_vibration (frequency : ℚ) : VibrationResult :=
  { frequency := frequency,
    wavelength := if frequency ≠ 0 then 1 / frequency else 0 }

/-- Result dict of HermeticPrinciples.principle_polarity. -/
structure PolarityResult where
  bull_force : ℚ
  bear_force : ℚ
  balance_point : ℚ
  market_state : String
  deriving Repr, DecidableEq

/-- HermeticPrinciples.principle_polarity: percentages of the total, with
    a 50/50 default when bull + bear = 0; bullish strictly above 50. -/
def principle_polarity (bull bear : ℚ) : PolarityResult :=
  let total := bull + bear
  let bullp := if total = 0 then 50 else bull / total * 100
  let bearp := if total = 0 then 50 else bear / total * 100
  { bull_force := bullp, bear_force := bearp, balance_point := 50,
    market_state := if bullp > 50 then "bullish" else "bearish" }

/-- Result dict of HermeticPrinciples.principle_gender. -/
structure GenderResult where
  masculine_active : ℚ
  feminine_receptive : ℚ
  market_state : String
  deriving Repr, DecidableEq

/-- HermeticPrinciples.principle_gender: mirror of polarity with the
    active/receptive labels. -/
def principle_gender (masculine feminine : ℚ) : GenderResult :=
  let total := masculine + feminine
  let mp := if total = 0 then 50 else masculine / total * 100
  let fp := if total = 0 then 50 else feminine / total * 100
  { masculine_active := mp, feminine_receptive := fp,
    market_state := if mp > 50 then "active" else "receptive" }

/-- Result dict of HermeticPrinciples.principle_rhythm. -/
inductive RhythmResult where
  /-- The dict flagged insufficient_data. -/
  | insufficient
  /-- up_movements, down_movements and cycle_ratio = ups / max(1, downs). -/
  | cycles (ups downs : ℕ) (cycle_quot : ℚ)
  deriving Repr, DecidableEq

/-- np.diff of a price list: consecutive differences. -/
def pydiff : List ℚ → List ℚ
  | x :: y :: rest => (y - x) :: pydiff (y :: rest)
  | _ => []

/-- HermeticPrinciples.principle_rhythm: fewer than 2 prices yields the
    insufficient-data marker; otherwise up/down counts over np.diff and
    the guarded ratio ups / max(1, downs). -/
def principle_rhythm (prices : List ℚ) : RhythmResult :=
  if prices.length < 2 then .insufficient
  else
    let changes := pydiff prices
    let ups := changes.countP (fun c => decide (0 < c))
    let downs := changes.countP (fun c => decide (c < 0))
    .cycles ups downs ((ups : ℚ) / ((max 1 downs : ℕ) : ℚ))

/-- Result dict of QuantumConsciousness.superposition. -/
structure SuperpositionResult where
  option_a : ℚ
  option_b : ℚ
  probability_a : ℚ
  probability_b : ℚ
  deriving Repr, DecidableEq

/-- QuantumConsciousness.superposition: probabilities default to 0.5
    unless option_a + option_b > 0. -/
def superposition (option_a option_b : ℚ) : SuperpositionResult :=
  { option_a := option_a, option_b := option_b,
    probability_a :=
      if option_a + option_b > 0 then option_a / (option_a + option_b)
      else 1 / 2,
    probability_b :=
      if option_a + option_b > 0 then option_b / (option_a + option_b)
      else 1 / 2 }

/-- Result dict of QuantumConsciousness.entanglement. -/
structure EntanglementResult where
  asset1 : ℚ
  asset2 : ℚ
  correlation : ℚ
  deriving Repr, DecidableEq

/-- QuantumConsciousness.entanglement: the unguarded division
    1 - |a1 - a2| / max(a1, a2) raises ZeroDivisionError whenever
    max(a1, a2) = 0. -/
def entanglement (asset1_price asset2_price : ℚ) :
    Except PyErr EntanglementResult :=
  if max asset1_price asset2_price = 0 then .error .zeroDivisionErr
  else
    .ok { asset1 := asset1_price, asset2 := asset2_price,
          correlation :=
            1 - |asset1_price - asset2_price| / max asset1_price asset2_price }

/-- Result dict of MagickProfitEngine.calculate_magick_profit (the float
    literal 1.1 is idealized as the rational 11/10). -/
structure MagickProfitResult where
  profit : ℚ
  roi_percent : ℚ
  magick_multiplier : ℚ
  magick_profit : ℚ
  total_profits : ℚ
  deriving Repr, DecidableEq

/-- MagickProfitEngine.calculate_magick_profit: the ROI division by entry
    is unguarded and raises ZeroDivisionError when entry = 0; on success
    the boosted profit is appended to self.profits (threaded explicitly). -/
def calculate_magick_profit (entry exitPrice amount : ℚ) (profits : List ℚ) :
    Except PyErr (MagickProfitResult × List ℚ) :=
  let profit := (exitPrice - entry) * amount
  if entry = 0 then .error .zeroDivisionErr
  else
    let roiPct := (exitPrice - entry) / entry * 100
    let magickProfit := profit * (11 / 10)
    let profits2 := profits ++ [magickProfit]
    .ok ({ profit := profit, roi_percent := roiPct,
           magick_multiplier := 11 / 10, magick_profit := magickProfit,
           total_profits := profits2.sum }, profits2)

/-
Spec-side definitions (written from the specification text, for the
refinement claims) and concrete inputs used by witnesses and
counterexamples.
-/

/-- Modelled from the spec (§4.2 step 4): the numeric-coercible amount of
    one transaction entry — present only when the entry is a structured
    record that contains an amount field whose float coercion succeeds. -/
def amountOf : Json → Option ℚ
  | .obj fields => (fields.lookup "amount").bind pyFloat
  | _ => none

/-- Modelled from the spec (§4.2 step 4 and §8): the profit delta is the
    sum of the coercible amount fields over the first 5 transactions,
    skipping malformed entries. -/
def profitDeltaSpec (txs : List Json) : ℚ :=
  ((txs.take 5).filterMap amountOf).sum

/-- Environment in which every provider call fails with a network error. -/
def envAllFail : MonitorEnv :=
  { balancePrimary := .exc "timeout", balanceFallback := .exc "timeout",
    tokensCall := .exc "timeout", txCall := .exc "timeout" }

/-- Environment in which only the token-balances call fails. -/
def envTokFail : MonitorEnv :=
  { balancePrimary := .resp 200 (.obj []), balanceFallback := .resp 200 .null,
    tokensCall := .exc "connection reset", txCall := .resp 200 (.arr []) }

/-- Environment in which every provider call succeeds with empty payloads. -/
def envAllOk : MonitorEnv :=
  { balancePrimary := .resp 200 (.obj []), balanceFallback := .resp 200 .null,
    tokensCall := .resp 200 (.arr []), txCall := .resp 200 (.arr []) }

/-- The transaction list of the spec's profit-delta test vector:
    [{amount: 3}, {amount: "bad"}, {amount: -1}, {no-amount-field},
    {amount: 2}]. -/
def exampleTxs : List Json :=
  [.obj [("amount", .num 3)],
   .obj [("amount", .str "bad")],
   .obj [("amount", .num (-1))],
   .obj [("source", .str "transfer")],
   .obj [("amount", .num 2)]]

/-- Environment whose transaction fetch returns the spec's test vector. -/
def envC3 : MonitorEnv :=
  { balancePrimary := .resp 200 (.obj []), balanceFallback := .resp 200 .null,
    tokensCall := .resp 200 (.arr []), txCall := .resp 200 (.arr exampleTxs) }

/-- Profit-state for the zero-session average witness. -/
def c10State : WalletState :=
  { balance_history := [], transactions := .arr [],
    total_profit := 5, sessions := 0, last_profit := 0 }

/- Helper lemmas (shared; not claim theorems). -/

/-- One profit-loop step adds exactly the coercible amount of the entry
    (or nothing). -/
theorem profitStep_eq (acc : ℚ) (tx : Json) :
    profitStep acc tx = acc + ((amountOf tx).getD 0) := by
  cases tx with
  | obj fields =>
    simp only [profitStep, amountOf]
    cases h : fields.lookup "amount" with
    | none => simp
    | some v =>
      cases hv : pyFloat v with
      | none => simp [hv]
      | some q => simp [hv]
  | null => simp [profitStep, amountOf]
  | bool b => simp [profitStep, amountOf]
  | num q => simp [profitStep, amountOf]
  | str s => simp [profitStep, amountOf]
  | arr l => simp [profitStep, amountOf]

/-- The profit loop computes the sum of the coercible amounts. -/
theorem foldl_profitStep (txs : List Json) :
    ∀ acc : ℚ, txs.foldl profitStep acc = acc + (txs.filterMap amountOf).sum := by
  induction txs with
  | nil => intro acc; simp
  | cons tx rest ih =>
    intro acc
    rw [List.foldl_cons, ih, profitStep_eq]
    cases h : amountOf tx with
    | none => simp [List.filterMap_cons, h]
    | some q => simp [List.filterMap_cons, h]; ring

/-- profitFold agrees with the filterMap/sum description. -/
theorem profitFold_eq (txs : List Json) :
    profitFold txs = (txs.filterMap amountOf).sum := by
  simpa using foldl_profitStep txs 0

/-- The transaction fetch never touches the balance history. -/
theorem gth_history (call : FetchOutcome) (lim : ℕ) (st : WalletState) :
    ((get_transaction_history call lim st).2).balance_history
      = st.balance_history := by
  cases call with
  | resp s p =>
    simp only [get_transaction_history]
    split
    · cases pyLen p <;> simp
    · rfl
  | exc m => rfl

/-- A monitor call never touches the balance history. -/
theorem monitor_history (w : String) (env : MonitorEnv) (st : WalletState) :
    ((monitor_wallet w env st).2).balance_history = st.balance_history := by
  have h := gth_history env.txCall 10 st
  simp only [monitor_wallet]
  split
  · rfl
  · rename_i tokensEnv heqTok
    split
    · rename_i e st1 heq
      rw [heq] at h
      simpa using h
    · rename_i txEnv st1 heq
      rw [heq] at h
      simp only at h
      split
      · simpa using h
      · simpa using h

/- Claim theorems. -/

/-- C1: the claim says monitor_wallet returns normally with a
    success-status composite snapshot for every outcome of the three
    provider fetches, including total failure. The code does not: when the
    token fetch fails, get_token_balances reaches its trailing
    error-envelope return whose str(e) mentions the except target after
    the handler has unbound it, so the call raises UnboundLocalError and
    monitor_wallet propagates it. This theorem evaluates monitor_wallet at
    the all-fetches-fail environment: it raises instead of returning the
    claimed envelope (and leaves the state untouched). -/
theorem c1_monitor_raises_on_total_failure :
    monitor_wallet WALLET_ADDRESS envAllFail initState
      = (.error (.unboundLocal "e"), initState) := rfl

/-- C2: the claim says the session counter grows by exactly 1 per
    monitor_wallet call regardless of fetch outcomes. When the token fetch
    fails, the call raises UnboundLocalError before reaching the
    profit-tracking update, so the counter does not move: after this call
    the counter equals its old value, not old value + 1. -/
theorem c2_sessions_frozen_on_token_failure :
    ((monitor_wallet WALLET_ADDRESS envTokFail initState).2).sessions
        = initState.sessions ∧
    (monitor_wallet WALLET_ADDRESS envTokFail initState).1
        = .error (.unboundLocal "e") :=
  ⟨rfl, rfl⟩

/-- C3: when the monitor call's token and transaction fetches are
    performed and succeed (200 responses with list payloads), the profit
    delta recorded in the profit-tracking state equals the spec-side sum
    of the float-coercible amount fields over the first 5 transaction
    records, with unstructured entries, missing amount fields and failed
    coercions silently skipped; the running total grows by the same
    delta. -/
theorem c3_profit_delta (w : String) (env : MonitorEnv) (st : WalletState)
    (ts txs : List Json)
    (htok : env.tokensCall = .resp 200 (.arr ts))
    (htx : env.txCall = .resp 200 (.arr txs)) :
    ((monitor_wallet w env st).2).last_profit = profitDeltaSpec txs ∧
    ((monitor_wallet w env st).2).total_profit
        = st.total_profit + profitDeltaSpec txs := by
  have hfold : profitFold (txs.take 5) = profitDeltaSpec txs := by
    rw [profitFold_eq, profitDeltaSpec]
  constructor <;>
    simp [monitor_wallet, htok, htx, get_token_balances,
          get_transaction_history, computeProfit, pyGet, pyLen, pySlice5,
          List.lookup, hfold]

/-- C3 witness: on the spec's test vector
    [{amount: 3}, {amount: "bad"}, {amount: -1}, {no-amount-field},
    {amount: 2}] the recorded profit delta is 4. -/
theorem c3_witness :
    envC3.tokensCall = FetchOutcome.resp 200 (Json.arr []) ∧
    envC3.txCall = FetchOutcome.resp 200 (Json.arr exampleTxs) ∧
    ((monitor_wallet "W" envC3 initState).2).last_profit = 4 := by
  refine ⟨rfl, rfl, ?_⟩
  have h := (c3_profit_delta "W" envC3 initState [] exampleTxs rfl rfl).1
  rw [h]
  have hlist : (exampleTxs.take 5).filterMap amountOf = [3, -1, 2] := rfl
  rw [profitDeltaSpec, hlist]
  norm_num

/-- C4 counterexample: the claim says the balance fetch always returns an
    envelope; but on a primary response whose status is neither 200 nor
    429 (nothing raised, no rate limit) get_wallet_balance falls off the
    end of the function and returns Python None (Json.null), not an
    envelope — the fallback is not even consulted. -/
theorem c4_counterexample :
    get_wallet_balance WALLET_ADDRESS (.resp 500 (.obj [])) (.resp 200 (.obj []))
      = Json.null := rfl

/-- C4 as amended: the balance fetch never raises, and behaves as claimed
    on the enumerated outcomes — success envelope with the payload on a
    200 primary, one fallback attempt on 429 or a raised exception, and a
    pending placeholder carrying the account identifier and a
    human-readable message when that fallback fails — but on a primary
    response with any other status it returns None instead of an
    envelope. -/
theorem c4_balance_fetch_envelopes
    (w : String) (p q : Json) (m : String) (s : ℕ) (fb : FetchOutcome)
    (hs1 : s ≠ 200) (hs2 : s ≠ 429) (hfb : fetchFails fb = true) :
    get_wallet_balance w (.resp 200 p) fb
        = .obj [("status", .str "success"), ("wallet", .str w), ("balance", p)] ∧
    get_wallet_balance w (.resp 429 q) fb = get_balance_fallback w fb ∧
    get_wallet_balance w (.exc m) fb = get_balance_fallback w fb ∧
    get_balance_fallback w fb = pendingEnv w ∧
    jLookup (pendingEnv w) "status" = some (.str "pending") ∧
    jLookup (pendingEnv w) "wallet" = some (.str w) ∧
    jLookup (pendingEnv w) "message" = some (.str "Wallet monitoring active") ∧
    get_wallet_balance w (.resp s p) fb = Json.null := by
  refine ⟨?_, ?_, ?_, ?_, ?_, ?_, ?_, ?_⟩
  · simp [get_wallet_balance]
  · simp [get_wallet_balance]
  · rfl
  · cases fb with
    | resp sf pf =>
      simp only [fetchFails] at hfb
      simp only [get_balance_fallback]
      split
      · rename_i h200
        rw [h200] at hfb
        simp at hfb
      · rfl
    | exc mf => rfl
  · simp [jLookup, pendingEnv, List.lookup]
  · simp [jLookup, pendingEnv, List.lookup]
  · simp [jLookup, pendingEnv, List.lookup]
  · simp [get_wallet_balance, hs1, hs2]

/-- C4 witness: the amended behavior at a concrete instance (primary
    status 500, fallback a raised exception). -/
theorem c4_witness :
    (500 ≠ 200) ∧ (500 ≠ 429) ∧ fetchFails (.exc "down") = true ∧
    (get_wallet_balance "W" (.resp 200 .null) (.exc "down")
        = .obj [("status", .str "success"), ("wallet", .str "W"),
                ("balance", .null)] ∧
     get_wallet_balance "W" (.resp 429 .null) (.exc "down")
        = get_balance_fallback "W" (.exc "down") ∧
     get_wallet_balance "W" (.exc "boom") (.exc "down")
        = get_balance_fallback "W" (.exc "down") ∧
     get_balance_fallback "W" (.exc "down") = pendingEnv "W" ∧
     jLookup (pendingEnv "W") "status" = some (.str "pending") ∧
     jLookup (pendingEnv "W") "wallet" = some (.str "W") ∧
     jLookup (pendingEnv "W") "message"
        = some (.str "Wallet monitoring active") ∧
     get_wallet_balance "W" (.resp 500 .null) (.exc "down") = Json.null) :=
  ⟨by decide, by decide, rfl,
   c4_balance_fetch_envelopes "W" .null .null "boom" 500 (.exc "down")
     (by decide) (by decide) rfl⟩

/-- C5 counterexample: the claim says every formula special-cases
    division-by-zero inputs, explicitly including quantum entanglement and
    the magick profit calculation; but entanglement(0, 0) divides by
    max(0, 0) = 0 and raises ZeroDivisionError, and
    calculate_magick_profit with entry price 0 raises ZeroDivisionError in
    its ROI computation. -/
theorem c5_counterexample :
    entanglement 0 0 = .error .zeroDivisionErr ∧
    calculate_magick_profit 0 10 2 [] = .error .zeroDivisionErr := by
  constructor
  · simp [entanglement]
  · simp [calculate_magick_profit]

/-- C5 as amended: the formulas that carry an explicit guard return their
    neutral defaults on zero denominators — polarity and gender fall back
    to a 50/50 split (and polarity(70, 30) is the bullish 70/30 split),
    vibration returns wavelength 0 at frequency 0, correspondence returns
    quotient 0 at a zero denominator, superposition falls back to equal
    probabilities, and the vesica-piscis formula returns 0 on a zero
    input — but quantum entanglement and the magick profit calculation
    have no guard: they raise ZeroDivisionError whenever max(asset1,
    asset2) = 0, respectively whenever the entry price is 0. -/
theorem c5_div_guards (bull bear a1 a2 exitPrice amount : ℚ)
    (hbb : bull + bear = 0) (hmax : max a1 a2 = 0) :
    (principle_polarity bull bear).bull_force = 50 ∧
    (principle_polarity bull bear).bear_force = 50 ∧
    (principle_polarity 70 30).bull_force = 70 ∧
    (principle_polarity 70 30).bear_force = 30 ∧
    (principle_polarity 70 30).market_state = "bullish" ∧
    (principle_gender 0 0).masculine_active = 50 ∧
    (principle_vibration 0).wavelength = 0 ∧
    (principle_correspondence 7 0).corr_quotient = 0 ∧
    (superposition 0 0).probability_a = 1 / 2 ∧
    vesica_piscis 0 3 = 0 ∧
    entanglement a1 a2 = .error .zeroDivisionErr ∧
    calculate_magick_profit 0 exitPrice amount [] = .error .zeroDivisionErr := by
  refine ⟨?_, ?_, ?_, ?_, ?_, ?_, ?_, ?_, ?_, ?_, ?_, ?_⟩
  · simp [principle_polarity, hbb]
  · simp [principle_polarity, hbb]
  · norm_num [principle_polarity]
  · norm_num [principle_polarity]
  · norm_num [principle_polarity]
  · norm_num [principle_gender]
  · norm_num [principle_vibration]
  · norm_num [principle_correspondence]
  · norm_num [superposition]
  · norm_num [vesica_piscis]
  · simp [entanglement, hmax]
  · simp [calculate_magick_profit]

/-- C5 witness: the amended behavior at bull = bear = 0 and
    asset1 = asset2 = 0. -/
theorem c5_witness :
    ((0 : ℚ) + 0 = 0) ∧ (max (0 : ℚ) 0 = 0) ∧
    ((principle_polarity 0 0).bull_force = 50 ∧
     (principle_polarity 0 0).bear_force = 50 ∧
     (principle_polarity 70 30).bull_force = 70 ∧
     (principle_polarity 70 30).bear_force = 30 ∧
     (principle_polarity 70 30).market_state = "bullish" ∧
     (principle_gender 0 0).masculine_active = 50 ∧
     (principle_vibration 0).wavelength = 0 ∧
     (principle_correspondence 7 0).corr_quotient = 0 ∧
     (superposition 0 0).probability_a = 1 / 2 ∧
     vesica_piscis 0 3 = 0 ∧
     entanglement 0 0 = .error .zeroDivisionErr ∧
     calculate_magick_profit 0 10 2 [] = .error .zeroDivisionErr) :=
  ⟨by norm_num, by norm_num,
   c5_div_guards 0 0 0 0 10 2 (by norm_num) (by norm_num)⟩

/-- C6 counterexample: the claim says a 19-element all-equal input is
    analyzed through the std > 0 guarded branch; but for an input of
    length 19 the segment iteration range(0, len - 19, 19) = range(0, 0,
    19) is empty, so no segment is ever formed and the guard is never
    evaluated at all. -/
theorem c6_counterexample :
    folStarts ((List.replicate 19 (0 : ℝ)).length) = [] := by
  rw [List.length_replicate]
  rfl

/-- C6 as amended: flower_of_life_pattern on inputs shorter than 6
    returns the insufficient-data sentinel, principle_rhythm on fewer than
    2 prices returns the insufficient-data marker, and on 19 all-equal
    values flower_of_life_pattern performs no segment analysis at all (the
    iteration range is empty for length 19), so the harmony score is 0 and
    no division by zero occurs — the std > 0 guard itself is never
    reached. -/
theorem c6_min_length_and_empty_loop (d : List ℝ) (h1 : d.length < 6)
    (p : List ℚ) (h2 : p.length < 2) (x : ℝ) :
    flower_of_life_pattern d = .insufficient ∧
    principle_rhythm p = .insufficient ∧
    folStarts (List.replicate 19 x).length = [] ∧
    flower_of_life_pattern (List.replicate 19 x) = .flowerOfLife 0 := by
  refine ⟨?_, ?_, ?_, ?_⟩
  · simp [flower_of_life_pattern, h1]
  · simp [principle_rhythm, h2]
  · rw [List.length_replicate]
    rfl
  · have hfs : folStarts 19 = [] := rfl
    simp only [flower_of_life_pattern, List.length_replicate]
    norm_num [hfs]

/-- C6 witness: the amended behavior at the concrete inputs [] (flower),
    [] (rhythm) and 19 copies of 1. -/
theorem c6_witness :
    (([] : List ℝ).length < 6) ∧ (([] : List ℚ).length < 2) ∧
    (flower_of_life_pattern [] = .insufficient ∧
     principle_rhythm [] = .insufficient ∧
     folStarts (List.replicate 19 (1 : ℝ)).length = [] ∧
     flower_of_life_pattern (List.replicate 19 (1 : ℝ)) = .flowerOfLife 0) :=
  ⟨by norm_num, by norm_num,
   c6_min_length_and_empty_loop [] (by norm_num) [] (by norm_num) 1⟩

/-- C7: for every positive price, golden_ratio_levels returns one level
    per entry of the 16-element Fibonacci table, and every level is
    strictly positive (price times a positive real power of PHI). -/
theorem c7_golden_levels (price : ℝ) (h : 0 < price) :
    (golden_ratio_levels price).length = 16 ∧
    ∀ l ∈ golden_ratio_levels price, 0 < l := by
  have hphi : 0 < PHI := by
    rw [PHI]
    positivity
  constructor
  · simp [golden_ratio_levels, FIBONACCI]
  · intro l hl
    simp only [golden_ratio_levels, List.mem_map] at hl
    obtain ⟨f, hf, rfl⟩ := hl
    exact mul_pos h (Real.rpow_pos_of_pos hphi _)

/-- C7 witness: the property at price 1. -/
theorem c7_witness :
    ((0 : ℝ) < 1) ∧
    ((golden_ratio_levels 1).length = 16 ∧
     ∀ l ∈ golden_ratio_levels 1, 0 < l) :=
  ⟨one_pos, c7_golden_levels 1 one_pos⟩

/-- C8: the claim says get_wallet_value always returns a value summary
    whose nft_count defaults to 0 when the NFT fetch fails. In the code a
    failed NFT fetch raises UnboundLocalError out of get_wallet_nfts (the
    trailing str(e) return), which the catch-all turns into a bare error
    envelope with no value summary at all. First conjunct: NFT call raises,
    result is the error envelope. Second conjunct: with all fetches
    succeeding (3 NFTs) the summary does carry zero monetary fields and
    the reported NFT count. -/
theorem c8_value_on_nft_failure :
    get_wallet_value WALLET_ADDRESS (.resp 200 (.arr [])) (.exc "timeout")
        (.resp 200 (.obj [])) (.resp 200 .null)
      = errorEnv (.unboundLocal "e") ∧
    get_wallet_value WALLET_ADDRESS (.resp 200 (.arr []))
        (.resp 200 (.arr [.obj [], .obj [], .obj []]))
        (.exc "down") (.exc "down")
      = .obj [("status", .str "success"), ("wallet", .str WALLET_ADDRESS),
              ("value", .obj [("sol_balance", .num 0), ("token_value", .num 0),
                              ("nft_count", .num 3),
                              ("total_usd_value", .num 0)])] := by
  constructor
  · rfl
  · rfl

/-- C9 counterexample: the claim says the balance history list is appended
    to by the balance-fetch operations; but after a monitor call whose
    balance fetch succeeds (from the freshly initialized aggregator) the
    balance history is still the empty list — no operation in the source
    ever appends to it. -/
theorem c9_counterexample :
    ((monitor_wallet WALLET_ADDRESS envAllOk initState).2).balance_history
      = [] := rfl

/-- C9 as amended: the balance history list is dead state that is never
    written at all — every monitor call and every transaction fetch leaves
    it unchanged — and the only read of it is get_wallet_status reporting
    its length. -/
theorem c9_history_never_written (w : String) (env : MonitorEnv)
    (st : WalletState) (call : FetchOutcome) (lim n : ℕ)
    (h : pyLen st.transactions = .ok n) :
    ((monitor_wallet w env st).2).balance_history = st.balance_history ∧
    ((get_transaction_history call lim st).2).balance_history
        = st.balance_history ∧
    reportedHistorySize w st
        = some (.num (st.balance_history.length : ℚ)) := by
  refine ⟨monitor_history w env st, gth_history call lim st, ?_⟩
  simp [reportedHistorySize, get_wallet_status, h, jLookup, List.lookup]

/-- C9 witness: the amended behavior at the initial state with all
    provider calls succeeding. -/
theorem c9_witness :
    pyLen initState.transactions = .ok 0 ∧
    (((monitor_wallet "W" envAllOk initState).2).balance_history
        = initState.balance_history ∧
     ((get_transaction_history (.exc "down") 10 initState).2).balance_history
        = initState.balance_history ∧
     reportedHistorySize "W" initState = some (.num 0)) := by
  refine ⟨rfl, ?_⟩
  have h := c9_history_never_written "W" envAllOk initState (.exc "down") 10 0 rfl
  simpa [initState] using h

/-- C10: for every profit-tracking state, track_profit reports status
    success and an average_profit_per_session equal to
    total_profit / max(1, sessions); the max guard makes the division safe,
    and at sessions = 0 the average equals total_profit itself. -/
theorem c10_track_profit (st : WalletState) :
    jLookup (track_profit st) "status" = some (.str "success") ∧
    jLookup (track_profit st) "average_profit_per_session"
        = some (.num (st.total_profit / ((max 1 st.sessions : ℕ) : ℚ))) ∧
    (st.sessions = 0 →
      jLookup (track_profit st) "average_profit_per_session"
        = some (.num st.total_profit)) := by
  refine ⟨?_, ?_, ?_⟩
  · simp [track_profit, jLookup, List.lookup]
  · simp [track_profit, jLookup, List.lookup]
  · intro h0
    simp [track_profit, jLookup, List.lookup, h0]

/-- C10 witness: at a state with 5.0 accumulated profit and a zero session
    counter, the reported average is 5 (no division by zero). -/
theorem c10_witness :
    c10State.sessions = 0 ∧
    jLookup (track_profit c10State) "average_profit_per_session"
      = some (.num 5) := by
  refine ⟨rfl, ?_⟩
  have h := (c10_track_profit c10State).2.2 rfl
  simpa [c10State] using h

end Tesseract
